import Mathlib

/-!
Verification of the per-request tenant-to-connection binding mechanism of
`enjoy-go-multitenancy` (package `apartment`, file `apartment.go`), as a
shallow embedding in Lean 4.

Modelling conventions:

* Values of `xid.ID` and physical connections are abstracted as natural
  numbers (`Xid`, `ConnId`); only identity matters to the broker.
* A Go `context.Context` is modelled by the record `Ctx` holding exactly the
  values this package stores in it: the tenant value (key `tenantCtxKey`),
  the request ID (key `reqIDCtxKey`) and the deadline.  An absent value is
  `none`; Go's `ctx.Value(k).(T)` two-result type assertion is the `Option`
  pattern match (a `nil` interface value fails the assertion, so `none` maps
  to `ok = false`).
* The call `context.WithTimeout(parent, d)` follows the Go standard
  library's `WithDeadline` semantics: the child's deadline is `now + d`,
  except that a parent deadline earlier than that is kept, i.e. the child
  deadline is `min parentDeadline (now + d)`.
* The registry `map[xid.ID]*sqlx.Conn` is an association list with
  overwrite-on-insert; only `lookup` is observable, matching Go map
  semantics for the operations the code performs.
* The function returned by `Middleware` (apartment.go lines 97-145) is
  embedded as a function from an environment (the outcomes of the effectful
  collaborators: the tenant getter, `db.Connx`, `conn.ExecContext`, the
  downstream handler, and the fresh `xid.New()` value) and a request
  context to the trace of observable actions it performs, the final
  registry, and whether a downstream panic propagates.  Go `defer` blocks
  run in LIFO order on every exit path, panics included; the traces below
  spell out exactly the order this produces for each syntactic exit path of
  the Go function.
* The mutex serialises registry access; within one request's execution the
  lock/unlock pairs are no-ops for the sequential embedding and are elided.
-/

namespace Apartment

/-- Abstraction of `xid.ID`: only identity matters. -/
abbrev Xid := Nat

/-- A pooled physical connection (`*sqlx.Conn`), abstracted by identity. -/
abbrev ConnId := Nat

/-- Go declaration `type Tenant string` (apartment.go line 32). -/
abbrev Tenant := String

/-- The two error values declared in apartment.go lines 23-29:
`ErrNoTenantBound` and `ErrNoConnectionBound`.  These are the only error
values the package declares; there is no `NoRequestBound` value. -/
inductive ApError where
  | noTenantBound
  | noConnectionBound
  deriving DecidableEq, Repr

/-- A Go `context.Context`, restricted to the values this package reads or
writes: tenant value, request ID, and deadline (absolute time). -/
structure Ctx where
  tenant : Option Tenant
  reqID : Option Xid
  deadline : Option Nat
  deriving DecidableEq, Repr

/-- Function `WithTenant` (line 35): stores the tenant under
`tenantCtxKey`. -/
def withTenant (ctx : Ctx) (t : Tenant) : Ctx := { ctx with tenant := some t }

/-- Function `ContextWithRequestID` (line 40): stores the ID under
`reqIDCtxKey`. -/
def contextWithRequestID (ctx : Ctx) (id : Xid) : Ctx :=
  { ctx with reqID := some id }

/-- Function `RequestIDFromContext` (line 45): the `(xid.ID, bool)` result
is the `Option` held in the context. -/
def requestIDFromContext (ctx : Ctx) : Option Xid := ctx.reqID

/-- Function `defaultGetTenant` (line 50): type-asserts the context value;
an absent value fails the assertion (`ok = false`), any stored `Tenant` —
the empty string included — succeeds. -/
def defaultGetTenant (ctx : Ctx) : Option Tenant := ctx.tenant

/-- Method `r.Header.Get(name)`: returns the empty string when the header
is absent. -/
def headerGet (hdr : Option String) : String := hdr.getD ""

/-- The context transformation performed by `InjectTenantFromHeader`
(lines 85-95) before calling `next`: the `tenant-id` header value —
whatever it is, the empty string included — is stored in the context via
`WithTenant`.  (The tracing attribute set when the value is non-empty has
no effect on the context.) -/
def injectTenantFromHeader (hdr : Option String) (ctx : Ctx) : Ctx :=
  withTenant ctx (headerGet hdr)

/-- Call `context.WithTimeout(ctx, d)` at absolute time `now`, Go
semantics: deadline `now + d`, tightened by an earlier parent deadline. -/
def goWithTimeout (ctx : Ctx) (now d : Nat) : Ctx :=
  { ctx with
    deadline :=
      match ctx.deadline with
      | none => some (now + d)
      | some pd => some (min pd (now + d)) }

/-- Statement text `fmt.Sprintf("use %s", tenant)` (line 126): the tenant
is interpolated directly. -/
def switchStmt (t : Tenant) : String := "use " ++ t

-- Section: the registry map.

/-- The registry `map[xid.ID]*sqlx.Conn`, as an association list. -/
abbrev Reg := List (Xid × ConnId)

/-- Go map read `m[k]` (comma-ok form). -/
def regLookup (m : Reg) (k : Xid) : Option ConnId :=
  match m with
  | [] => none
  | (k', v) :: rest => if k' = k then some v else regLookup rest k

/-- Go statement `delete(m, k)`. -/
def regErase (m : Reg) (k : Xid) : Reg :=
  match m with
  | [] => []
  | (k', v) :: rest =>
    if k' = k then regErase rest k else (k', v) :: regErase rest k

/-- Go map write `m[k] = v` (overwrites any previous binding of `k`). -/
def regInsert (m : Reg) (k : Xid) (v : ConnId) : Reg := (k, v) :: regErase m k

/-- Range membership, used to state freshness of pooled connections. -/
def regHasConn (m : Reg) (c : ConnId) : Bool := m.any (fun p => p.2 = c)

/-- Registry 1:1 property: no connection is referenced by two tokens. -/
def regInjective (m : Reg) : Prop :=
  ∀ k₁ k₂ c, regLookup m k₁ = some c → regLookup m k₂ = some c → k₁ = k₂

/-- Executable sufficient check for `regInjective`: any two entries with
distinct keys carry distinct connections. -/
def regInjCheck : Reg → Bool
  | [] => true
  | (k, v) :: rest =>
    rest.all (fun p => p.1 = k || p.2 ≠ v) && regInjCheck rest

-- Section: the Manager.

/-- State of `Manager` (line 64): the registry.  The `*sqlx.DB` handle, the
tenant getter and the mutex live in the environment of the embedding. -/
structure Manager where
  conns : Reg
  deriving DecidableEq, Repr

/-- Constructor `New` (line 56): fresh manager with an empty registry. -/
def New : Manager := { conns := [] }

/-- Method `Manager.ExtractConnection` (lines 71-83).  Both failure
branches — no request ID in the context, and request ID not present in the
registry — return `ErrNoConnectionBound`.  The method only reads `h.conns`
(under the mutex); the returned `Manager` is the state after the call. -/
def ExtractConnection (h : Manager) (ctx : Ctx) :
    Except ApError ConnId × Manager :=
  match requestIDFromContext ctx with
  | none => (Except.error ApError.noConnectionBound, h)
  | some reqID =>
    match regLookup h.conns reqID with
    | none => (Except.error ApError.noConnectionBound, h)
    | some conn => (Except.ok conn, h)

-- Section: the middleware.

/-- One observable action of the middleware handler, in program order. -/
inductive Ev where
  /-- Output of `respondError(w, status, msg)`. -/
  | respond (status : Nat) (msg : String)
  /-- Successful `h.db.Connx(ctx)`: one connection acquired from the
  pool. -/
  | connAcquire (c : ConnId)
  /-- Call `conn.ExecContext(exCtx, stmt)` with the deadline of `exCtx`. -/
  | execStmt (stmt : String) (dl : Option Nat)
  /-- Registry write `h.conns[reqID] = conn`. -/
  | regBind (t : Xid) (c : ConnId)
  /-- Call `next.ServeHTTP` with the request context it receives. -/
  | runNext (ctx : Ctx)
  /-- Registry write `delete(h.conns, reqID)`. -/
  | regUnbind (t : Xid)
  /-- Call `conn.Close()`: the connection is released to the pool. -/
  | connClose (c : ConnId)
  deriving DecidableEq, Repr

/-- Environment of one middleware invocation: the outcomes of the
effectful collaborators consulted during the request. -/
structure MwEnv where
  /-- Field `h.getTenant` (set to `defaultGetTenant` by `New`). -/
  getTenant : Ctx → Option Tenant
  /-- Outcome of `h.db.Connx(ctx)`: a connection, or an error. -/
  connectResult : Except Unit ConnId
  /-- Whether `conn.ExecContext(exCtx, "use " + tenant)` succeeds. -/
  execOk : Bool
  /-- Whether `next.ServeHTTP` panics. -/
  nextPanics : Bool
  /-- The value of `xid.New()`. -/
  newID : Xid
  /-- Absolute time at the `context.WithTimeout` call. -/
  now : Nat

/-- Result of one middleware invocation: the trace of observable actions in
order, the manager state after the handler returns, and whether a
downstream panic propagates out of the handler (its deferred functions
having run either way). -/
structure MwResult where
  events : List Ev
  mgr : Manager
  panicked : Bool
  deriving DecidableEq, Repr

/-- The handler produced by `Middleware(h)` (lines 97-145), applied to one
request with context `r`.  Exit paths of the Go code and the order their
`defer`s run:

* no tenant (line 103): respond 400, return — no defers registered;
* `Connx` fails (line 112): respond 500, return — no defers registered;
* `ExecContext` fails (line 126): respond 500, return, then LIFO defers:
  `cancel()` (line 125), then close the connection (line 117);
* downstream returns or panics (line 142): LIFO defers: delete the request
  ID (line 136), then `cancel()`, then close the connection; a panic
  propagates after the defers have run. -/
def Middleware (env : MwEnv) (h : Manager) (r : Ctx) : MwResult :=
  match env.getTenant r with
  | none =>
    { events := [Ev.respond 400 "no tenant found"], mgr := h, panicked := false }
  | some tenant =>
    let ctx := withTenant r tenant
    match env.connectResult with
    | Except.error _ =>
      { events := [Ev.respond 500 "failed to open new connection"],
        mgr := h, panicked := false }
    | Except.ok conn =>
      let exCtx := goWithTimeout ctx env.now 3
      if env.execOk then
        let reqID := env.newID
        let bound : Manager := { conns := regInsert h.conns reqID conn }
        let final : Manager := { conns := regErase bound.conns reqID }
        { events :=
            [Ev.connAcquire conn,
             Ev.execStmt (switchStmt tenant) exCtx.deadline,
             Ev.regBind reqID conn,
             Ev.runNext (contextWithRequestID ctx reqID),
             Ev.regUnbind reqID,
             Ev.connClose conn],
          mgr := final, panicked := env.nextPanics }
      else
        { events :=
            [Ev.connAcquire conn,
             Ev.execStmt (switchStmt tenant) exCtx.deadline,
             Ev.respond 500 "failed to change the tenant",
             Ev.connClose conn],
          mgr := h, panicked := false }

-- Section: derived observations on traces.

/-- Number of `connClose` actions in a trace. -/
def countClose (evs : List Ev) : Nat :=
  (evs.filter (fun e => match e with | Ev.connClose _ => true | _ => false)).length

/-- Number of successful pool acquisitions in a trace. -/
def countAcquire (evs : List Ev) : Nat :=
  (evs.filter (fun e => match e with | Ev.connAcquire _ => true | _ => false)).length

/-- Test for a registry-unbind action. -/
def isUnbind : Ev → Bool
  | Ev.regUnbind _ => true
  | _ => false

/-- Test for a connection-close action. -/
def isClose : Ev → Bool
  | Ev.connClose _ => true
  | _ => false

/-- Test for a downstream-handler invocation. -/
def isRunNext : Ev → Bool
  | Ev.runNext _ => true
  | _ => false

/-- Test for a registry-bind action. -/
def isBind : Ev → Bool
  | Ev.regBind _ _ => true
  | _ => false

/-- Replay of the registry mutations of a trace over an initial registry:
only `regBind` and `regUnbind` actions touch the map. -/
def replayReg (m : Reg) : List Ev → Reg
  | [] => m
  | Ev.regBind t c :: rest => replayReg (regInsert m t c) rest
  | Ev.regUnbind t :: rest => replayReg (regErase m t) rest
  | _ :: rest => replayReg m rest

/-- Deadlines of the `ExecContext` calls of a trace, in order. -/
def execDeadlines (evs : List Ev) : List (Option Nat) :=
  evs.filterMap
    (fun e => match e with | Ev.execStmt _ dl => some dl | _ => none)

-- Section: concrete fixtures used by the witnesses and counterexamples.

/-- A bare context, as handed to a handler outside any middleware. -/
def bareCtx : Ctx := { tenant := none, reqID := none, deadline := none }

/-- A context that already carries tenant `"acme"`. -/
def acmeReq : Ctx := { tenant := some "acme", reqID := none, deadline := none }

/-- A context carrying a tenant string with an embedded SQL payload. -/
def sneakyReq : Ctx :=
  { tenant := some "acme; DROP DATABASE prod", reqID := none, deadline := none }

/-- A tenant-"acme" request whose deadline (1) undercuts the fixed
3-second schema-switch timeout. -/
def shortDlReq : Ctx :=
  { tenant := some "acme", reqID := none, deadline := some 1 }

/-- A tenant-"acme" request whose deadline (100) exceeds the fixed
3-second schema-switch timeout. -/
def longDlReq : Ctx :=
  { tenant := some "acme", reqID := none, deadline := some 100 }

/-- Environment: everything succeeds and the downstream handler panics. -/
def envBindPanic : MwEnv :=
  { getTenant := defaultGetTenant, connectResult := Except.ok 7,
    execOk := true, nextPanics := true, newID := 5, now := 0 }

/-- Environment: the schema-switch statement fails. -/
def envSwitchFail : MwEnv :=
  { getTenant := defaultGetTenant, connectResult := Except.ok 7,
    execOk := false, nextPanics := false, newID := 5, now := 0 }

/-- A two-request registry snapshot. -/
def isoReg : Reg := [(1, 10), (2, 20)]

/-- Request context of the first request in `isoReg`. -/
def isoCtx : Ctx := { tenant := none, reqID := some 1, deadline := none }

-- Section: registry lemmas.

theorem regLookup_erase_self (m : Reg) (k : Xid) :
    regLookup (regErase m k) k = none := by
  induction m with
  | nil => rfl
  | cons p rest ih =>
    obtain ⟨k', v⟩ := p
    by_cases hk : k' = k
    · simpa [regErase, hk] using ih
    · simpa [regErase, regLookup, hk] using ih

theorem regLookup_erase_ne (m : Reg) (k k' : Xid) (h : k ≠ k') :
    regLookup (regErase m k) k' = regLookup m k' := by
  induction m with
  | nil => rfl
  | cons p rest ih =>
    obtain ⟨k₀, v⟩ := p
    by_cases hk : k₀ = k
    · subst hk
      simpa [regErase, regLookup, h] using ih
    · simp only [regErase, if_neg hk, regLookup]
      by_cases hk' : k₀ = k'
      · simp [hk']
      · simpa [hk'] using ih

theorem regErase_of_lookup_none (m : Reg) (k : Xid)
    (h : regLookup m k = none) : regErase m k = m := by
  induction m with
  | nil => rfl
  | cons p rest ih =>
    obtain ⟨k₀, v⟩ := p
    by_cases hk : k₀ = k
    · simp [regLookup, hk] at h
    · simp only [regLookup, if_neg hk] at h
      simp [regErase, hk, ih h]

theorem regErase_erase (m : Reg) (k : Xid) :
    regErase (regErase m k) k = regErase m k :=
  regErase_of_lookup_none _ _ (regLookup_erase_self m k)

theorem regLookup_insert_self (m : Reg) (k : Xid) (v : ConnId) :
    regLookup (regInsert m k v) k = some v := by
  simp [regInsert, regLookup]

theorem regLookup_insert_ne (m : Reg) (k : Xid) (v : ConnId) (k' : Xid)
    (h : k ≠ k') : regLookup (regInsert m k v) k' = regLookup m k' := by
  simp only [regInsert, regLookup, if_neg h]
  exact regLookup_erase_ne m k k' h

theorem regErase_insert_self (m : Reg) (k : Xid) (v : ConnId) :
    regErase (regInsert m k v) k = regErase m k := by
  simp [regInsert, regErase, regErase_erase]

theorem regLookup_mem (m : Reg) (k : Xid) (v : ConnId)
    (h : regLookup m k = some v) : (k, v) ∈ m := by
  induction m with
  | nil => simp [regLookup] at h
  | cons p rest ih =>
    obtain ⟨k₀, v₀⟩ := p
    by_cases hk : k₀ = k
    · simp only [regLookup, if_pos hk, Option.some.injEq] at h
      subst hk; subst h
      exact List.mem_cons_self _ _
    · simp only [regLookup, if_neg hk] at h
      exact List.mem_cons_of_mem _ (ih h)

theorem regHasConn_false_lookup (m : Reg) (c : ConnId)
    (h : regHasConn m c = false) (k : Xid) (v : ConnId)
    (hl : regLookup m k = some v) : v ≠ c := by
  intro hvc
  subst hvc
  have hm := regLookup_mem m k v hl
  have := List.any_eq_false.mp h (k, v) hm
  simp at this

theorem regInjective_insert (m : Reg) (k : Xid) (c : ConnId)
    (hinj : regInjective m) (hc : regHasConn m c = false) :
    regInjective (regInsert m k c) := by
  intro k₁ k₂ c' h₁ h₂
  by_cases e₁ : k = k₁ <;> by_cases e₂ : k = k₂
  · exact e₁ ▸ e₂ ▸ rfl
  · subst e₁
    rw [regLookup_insert_self] at h₁
    rw [regLookup_insert_ne m k c k₂ e₂] at h₂
    have hcc := Option.some.inj h₁
    subst hcc
    exact absurd rfl (regHasConn_false_lookup m c hc k₂ c h₂)
  · subst e₂
    rw [regLookup_insert_self] at h₂
    rw [regLookup_insert_ne m k c k₁ e₁] at h₁
    have hcc := Option.some.inj h₂
    subst hcc
    exact absurd rfl (regHasConn_false_lookup m c hc k₁ c h₁)
  · rw [regLookup_insert_ne m k c k₁ e₁] at h₁
    rw [regLookup_insert_ne m k c k₂ e₂] at h₂
    exact hinj k₁ k₂ c' h₁ h₂

theorem regInjCheck_injective (m : Reg) (h : regInjCheck m = true) :
    regInjective m := by
  induction m with
  | nil => intro k₁ k₂ c h₁ _; simp [regLookup] at h₁
  | cons p rest ih =>
    obtain ⟨k, v⟩ := p
    simp only [regInjCheck, Bool.and_eq_true, List.all_eq_true] at h
    obtain ⟨hall, hrest⟩ := h
    intro k₁ k₂ c h₁ h₂
    by_cases e₁ : k = k₁ <;> by_cases e₂ : k = k₂
    · exact e₁ ▸ e₂ ▸ rfl
    · simp only [regLookup, if_pos e₁, Option.some.injEq] at h₁
      simp only [regLookup, if_neg e₂] at h₂
      have hm := regLookup_mem rest k₂ c h₂
      have := hall (k₂, c) hm
      simp only [Bool.or_eq_true, decide_eq_true_eq] at this
      rcases this with hk | hv
      · exact absurd hk.symm e₂
      · exact absurd h₁ (fun hh => hv (hh ▸ rfl))
    · simp only [regLookup, if_pos e₂, Option.some.injEq] at h₂
      simp only [regLookup, if_neg e₁] at h₁
      have hm := regLookup_mem rest k₁ c h₁
      have := hall (k₁, c) hm
      simp only [Bool.or_eq_true, decide_eq_true_eq] at this
      rcases this with hk | hv
      · exact absurd hk.symm e₁
      · exact absurd h₂ (fun hh => hv (hh ▸ rfl))
    · simp only [regLookup, if_neg e₁] at h₁
      simp only [regLookup, if_neg e₂] at h₂
      exact ih hrest k₁ k₂ c h₁ h₂

-- Section: the claims.

/-- C10: `ExtractConnection` never mutates the broker's state — for every
registry state and every context (with or without a request token,
registered or not), the registry map after the call equals the registry map
before it. -/
theorem c10_extract_connection_preserves_registry (h : Manager) (ctx : Ctx) :
    (ExtractConnection h ctx).2.conns = h.conns := by
  cases hr : ctx.reqID with
  | none => simp [ExtractConnection, requestIDFromContext, hr]
  | some reqID =>
    cases hl : regLookup h.conns reqID with
    | none => simp [ExtractConnection, requestIDFromContext, hr, hl]
    | some conn => simp [ExtractConnection, requestIDFromContext, hr, hl]

/-- C4, counterexample: `ExtractConnection` does NOT distinguish its two
failure modes by error value.  At the concrete inputs below — a context
with no request token, and a context whose token `1` is not in the (empty)
registry — both calls return the very same error value
`ErrNoConnectionBound`; the package declares no `NoRequestBound` error at
all, so the no-token case cannot fail with a distinct `NoRequestBound`
condition. -/
theorem c4_failure_modes_counterexample :
    (ExtractConnection New bareCtx).1
        = Except.error ApError.noConnectionBound ∧
    (ExtractConnection New { bareCtx with reqID := some 1 }).1
        = Except.error ApError.noConnectionBound ∧
    (ExtractConnection New bareCtx).1
        = (ExtractConnection New { bareCtx with reqID := some 1 }).1 :=
  ⟨rfl, rfl, rfl⟩

/-- C4, amended: `ExtractConnection` fails with the same error value
`ErrNoConnectionBound` in both failure modes — when the context carries no
request token (never routed through the middleware), and when the context's
token is not present in the registry (before bind completes or after
release).  The two modes are not distinguished by error value. -/
theorem c4_both_failures_no_connection_bound (h : Manager) (ctx : Ctx) :
    (ctx.reqID = none →
      (ExtractConnection h ctx).1 = Except.error ApError.noConnectionBound) ∧
    (∀ t, ctx.reqID = some t → regLookup h.conns t = none →
      (ExtractConnection h ctx).1 = Except.error ApError.noConnectionBound) := by
  constructor
  · intro hr
    simp [ExtractConnection, requestIDFromContext, hr]
  · intro t hr hl
    simp [ExtractConnection, requestIDFromContext, hr, hl]

/-- Witness for C4 (amended) at the registry of a fresh manager: a
token-free context and an unregistered token `1` both yield
`ErrNoConnectionBound`. -/
theorem c4_both_failures_witness :
    (ExtractConnection New bareCtx).1
        = Except.error ApError.noConnectionBound ∧
    (ExtractConnection New { bareCtx with reqID := some 1 }).1
        = Except.error ApError.noConnectionBound :=
  ⟨(c4_both_failures_no_connection_bound New bareCtx).1 rfl,
   (c4_both_failures_no_connection_bound New
      { bareCtx with reqID := some 1 }).2 1 rfl rfl⟩

/-- C9: for every resolved tenant `t`, the schema-switch statement text the
middleware executes is exactly `"use " ++ t` — the tenant interpolated
directly into the SQL string, with no validation, quoting or allow-list
filtering of any tenant string. -/
theorem c9_switch_statement_raw_interpolation (env : MwEnv) (h : Manager)
    (r : Ctx) (t : Tenant) (c : ConnId)
    (ht : env.getTenant r = some t) (hc : env.connectResult = Except.ok c) :
    (∀ s : Tenant, switchStmt s = "use " ++ s) ∧
    ∃ dl, Ev.execStmt ("use " ++ t) dl ∈ (Middleware env h r).events := by
  refine ⟨fun s => rfl, ?_⟩
  refine ⟨(goWithTimeout (withTenant r t) env.now 3).deadline, ?_⟩
  cases hex : env.execOk <;> simp [Middleware, ht, hc, hex, switchStmt]

/-- Witness for C9: a tenant string carrying a SQL payload is interpolated
verbatim into the executed statement. -/
theorem c9_switch_statement_witness :
    envBindPanic.getTenant sneakyReq = some "acme; DROP DATABASE prod" ∧
    envBindPanic.connectResult = Except.ok 7 ∧
    ((∀ s : Tenant, switchStmt s = "use " ++ s) ∧
     ∃ dl, Ev.execStmt ("use " ++ "acme; DROP DATABASE prod") dl ∈
       (Middleware envBindPanic New sneakyReq).events) :=
  ⟨rfl, rfl,
   c9_switch_statement_raw_interpolation envBindPanic New sneakyReq
     "acme; DROP DATABASE prod" 7 rfl rfl⟩

/-- C2: for a request whose bind completed and has not been released,
`ExtractConnection` with that request's context returns exactly the
connection bound under its token, and — registry isolation, under the 1:1
registry invariant — never the connection bound under a different request's
token: distinct tokens hold distinct connections. -/
theorem c2_registry_isolation (m : Reg) (ctx : Ctx) (t₁ t₂ : Xid)
    (c₁ c₂ : ConnId) (hctx : ctx.reqID = some t₁)
    (h₁ : regLookup m t₁ = some c₁) (h₂ : regLookup m t₂ = some c₂)
    (hne : t₁ ≠ t₂) (hinj : regInjective m) :
    (ExtractConnection { conns := m } ctx).1 = Except.ok c₁ ∧ c₁ ≠ c₂ := by
  constructor
  · simp [ExtractConnection, requestIDFromContext, hctx, h₁]
  · intro hcc
    subst hcc
    exact hne (hinj t₁ t₂ c₁ h₁ h₂)

/-- Witness for C2 on a concrete two-request registry: request `1` gets
back its own connection `10`, never request `2`'s connection `20`. -/
theorem c2_registry_isolation_witness :
    isoCtx.reqID = some 1 ∧ regLookup isoReg 1 = some 10 ∧
    regLookup isoReg 2 = some 20 ∧ (1 : Xid) ≠ 2 ∧ regInjective isoReg ∧
    ((ExtractConnection { conns := isoReg } isoCtx).1 = Except.ok 10 ∧
      (10 : ConnId) ≠ 20) :=
  ⟨rfl, rfl, rfl, by decide, regInjCheck_injective isoReg (by decide),
   c2_registry_isolation isoReg isoCtx 1 2 10 20 rfl rfl rfl (by decide)
     (regInjCheck_injective isoReg (by decide))⟩

/-- C1: for every request that enters the middleware and successfully
acquires and binds a connection, the connection is closed (released to the
pool) exactly once on every exit path — the schema-switch failure path and
the downstream path alike, the panic case included, since the conclusion
holds for every value of `nextPanics` — and the request's token is absent
from the registry after the middleware returns. -/
theorem c1_release_once_token_absent (env : MwEnv) (h : Manager) (r : Ctx)
    (t : Tenant) (c : ConnId)
    (ht : env.getTenant r = some t) (hc : env.connectResult = Except.ok c)
    (hfresh : regLookup h.conns env.newID = none) :
    countClose (Middleware env h r).events = 1 ∧
    regLookup (Middleware env h r).mgr.conns env.newID = none := by
  cases hex : env.execOk
  · constructor
    · simp [Middleware, ht, hc, hex, countClose, List.filter]
    · simpa [Middleware, ht, hc, hex] using hfresh
  · constructor
    · simp [Middleware, ht, hc, hex, countClose, List.filter]
    · simp only [Middleware, ht, hc, hex]
      exact regLookup_erase_self _ _

/-- Witness for C1, exercising the panic path: in `envBindPanic` the
downstream handler panics, yet the connection is closed exactly once and
token `5` is gone from the registry. -/
theorem c1_release_once_witness :
    envBindPanic.getTenant acmeReq = some "acme" ∧
    envBindPanic.connectResult = Except.ok 7 ∧
    regLookup New.conns envBindPanic.newID = none ∧
    envBindPanic.nextPanics = true ∧
    (countClose (Middleware envBindPanic New acmeReq).events = 1 ∧
     regLookup (Middleware envBindPanic New acmeReq).mgr.conns
       envBindPanic.newID = none) :=
  ⟨rfl, rfl, rfl, rfl,
   c1_release_once_token_absent envBindPanic New acmeReq "acme" 7 rfl rfl rfl⟩

/-- C5: on the release path of the middleware (bind completed, downstream
ran), the request's token is removed from the registry strictly before the
connection is closed: the unbind and the close both occur in the trace, and
every occurrence of the unbind precedes every occurrence of the close. -/
theorem c5_unbind_precedes_close (env : MwEnv) (h : Manager) (r : Ctx)
    (t : Tenant) (c : ConnId)
    (ht : env.getTenant r = some t) (hc : env.connectResult = Except.ok c)
    (hexec : env.execOk = true) :
    (Ev.regUnbind env.newID ∈ (Middleware env h r).events ∧
     Ev.connClose c ∈ (Middleware env h r).events) ∧
    ∀ i j,
      (Middleware env h r).events.get? i = some (Ev.regUnbind env.newID) →
      (Middleware env h r).events.get? j = some (Ev.connClose c) →
      i < j := by
  constructor
  · constructor <;> simp [Middleware, ht, hc, hexec]
  · intro i j hi hj
    simp only [Middleware, ht, hc, hexec, if_pos] at hi hj
    rcases i with _ | _ | _ | _ | _ | _ | i <;>
      rcases j with _ | _ | _ | _ | _ | _ | j <;>
      simp_all [List.get?]

/-- Witness for C5: in the all-success run, the unbind of token `5` and
the close of connection `7` both occur, unbind first. -/
theorem c5_unbind_precedes_close_witness :
    envBindPanic.getTenant acmeReq = some "acme" ∧
    envBindPanic.connectResult = Except.ok 7 ∧
    envBindPanic.execOk = true ∧
    ((Ev.regUnbind envBindPanic.newID ∈
        (Middleware envBindPanic New acmeReq).events ∧
      Ev.connClose 7 ∈ (Middleware envBindPanic New acmeReq).events) ∧
     ∀ i j,
       (Middleware envBindPanic New acmeReq).events.get? i
           = some (Ev.regUnbind envBindPanic.newID) →
       (Middleware envBindPanic New acmeReq).events.get? j
           = some (Ev.connClose 7) →
       i < j) :=
  ⟨rfl, rfl, rfl,
   c5_unbind_precedes_close envBindPanic New acmeReq "acme" 7 rfl rfl rfl⟩

/-- C7: when the schema-switch statement fails, the middleware responds
with the 500 server error "failed to change the tenant", never invokes the
downstream handler, still closes the acquired connection exactly once, and
leaves the registry unchanged — no token is inserted for the request. -/
theorem c7_switch_failure_behaviour (env : MwEnv) (h : Manager) (r : Ctx)
    (t : Tenant) (c : ConnId)
    (ht : env.getTenant r = some t) (hc : env.connectResult = Except.ok c)
    (hexec : env.execOk = false) :
    Ev.respond 500 "failed to change the tenant" ∈
        (Middleware env h r).events ∧
    (Middleware env h r).events.any isRunNext = false ∧
    (Middleware env h r).events.any isBind = false ∧
    countClose (Middleware env h r).events = 1 ∧
    (Middleware env h r).mgr = h := by
  refine ⟨?_, ?_, ?_, ?_, ?_⟩ <;>
    simp [Middleware, ht, hc, hexec, countClose, isRunNext, isBind,
      List.filter, List.any]

/-- Witness for C7 in the concrete failing-switch environment. -/
theorem c7_switch_failure_witness :
    envSwitchFail.getTenant acmeReq = some "acme" ∧
    envSwitchFail.connectResult = Except.ok 7 ∧
    envSwitchFail.execOk = false ∧
    (Ev.respond 500 "failed to change the tenant" ∈
        (Middleware envSwitchFail New acmeReq).events ∧
     (Middleware envSwitchFail New acmeReq).events.any isRunNext = false ∧
     (Middleware envSwitchFail New acmeReq).events.any isBind = false ∧
     countClose (Middleware envSwitchFail New acmeReq).events = 1 ∧
     (Middleware envSwitchFail New acmeReq).mgr = New) :=
  ⟨rfl, rfl, rfl,
   c7_switch_failure_behaviour envSwitchFail New acmeReq "acme" 7 rfl rfl rfl⟩

/-- C3, counterexample: a request whose `tenant-id` header is absent (or
empty) and which went through `InjectTenantFromHeader` — the wiring in
`web.go` — does NOT resolve to found = false: `InjectTenantFromHeader`
stores the empty header value in the context, `defaultGetTenant`'s type
assertion then succeeds, so resolution yields `("", true)`; the middleware
does not short-circuit with the 400 "no tenant found" response and
acquires a connection from the pool (acquisition count 1, not 0). -/
theorem c3_empty_header_counterexample :
    defaultGetTenant (injectTenantFromHeader none bareCtx) = some "" ∧
    defaultGetTenant (injectTenantFromHeader (some "") bareCtx) = some "" ∧
    countAcquire
        (Middleware envBindPanic New (injectTenantFromHeader none bareCtx)).events
      = 1 ∧
    Ev.respond 400 "no tenant found" ∉
      (Middleware envBindPanic New (injectTenantFromHeader none bareCtx)).events ∧
    Ev.execStmt "use " (some 3) ∈
      (Middleware envBindPanic New (injectTenantFromHeader none bareCtx)).events := by
  refine ⟨rfl, rfl, ?_, ?_, ?_⟩ <;> decide

/-- C3, amended: resolution after `InjectTenantFromHeader` always reports
found = true carrying the raw header value — `("", true)` for an absent or
empty header, `("acme", true)` for value "acme" — so absent/empty headers
do not short-circuit; the middleware responds 400 "no tenant found" before
acquiring any connection (acquisition count zero) exactly when the context
carries no tenant value at all, i.e. for requests not routed through
`InjectTenantFromHeader`. -/
theorem c3_resolution_amended (hdr : Option String) (ctx : Ctx)
    (env : MwEnv) (h : Manager) (r : Ctx) :
    defaultGetTenant (injectTenantFromHeader hdr ctx) = some (headerGet hdr) ∧
    headerGet none = "" ∧ headerGet (some "") = "" ∧
    defaultGetTenant (injectTenantFromHeader (some "acme") ctx) = some "acme" ∧
    (env.getTenant r = none →
      (Middleware env h r).events = [Ev.respond 400 "no tenant found"] ∧
      countAcquire (Middleware env h r).events = 0) := by
  refine ⟨rfl, rfl, rfl, rfl, ?_⟩
  intro hr
  constructor <;> simp [Middleware, hr, countAcquire, List.filter]

/-- Witness for C3 (amended): a context carrying no tenant value at all is
refused with the 400 response and zero pool acquisitions. -/
theorem c3_resolution_amended_witness :
    envBindPanic.getTenant bareCtx = none ∧
    (defaultGetTenant (injectTenantFromHeader none bareCtx)
        = some (headerGet none) ∧
     headerGet none = "" ∧ headerGet (some "") = "" ∧
     defaultGetTenant (injectTenantFromHeader (some "acme") bareCtx)
        = some "acme" ∧
     ((Middleware envBindPanic New bareCtx).events
          = [Ev.respond 400 "no tenant found"] ∧
      countAcquire (Middleware envBindPanic New bareCtx).events = 0)) :=
  ⟨rfl, by
    obtain ⟨a, b, c, d, e⟩ :=
      c3_resolution_amended none bareCtx envBindPanic New bareCtx
    exact ⟨a, b, c, d, e rfl⟩⟩

/-- C8, counterexample: the schema-switch bound is NOT unchanged by a
shorter request deadline.  At `now = 0`, a request deadline of 1 (shorter
than the fixed 3-second timeout) makes the switch statement run under
deadline 1 — whereas a request deadline of 100 leaves it at 3. -/
theorem c8_fixed_timeout_counterexample :
    execDeadlines (Middleware envBindPanic New shortDlReq).events
        = [some 1] ∧
    execDeadlines (Middleware envBindPanic New longDlReq).events
        = [some 3] ∧
    (1 : Nat) ≠ 3 := by
  refine ⟨?_, ?_, ?_⟩ <;> decide

/-- C8, amended: the schema-switch statement runs under a context whose
deadline is `min (request deadline) (now + 3s)` — Go's `WithTimeout` keeps
an earlier parent deadline.  Hence the 3-second cap holds regardless of the
request deadline (the switch deadline never exceeds now + 3), a request
with no deadline or a longer deadline gets exactly now + 3, but a request
deadline shorter than now + 3 tightens the switch bound below the fixed
timeout. -/
theorem c8_switch_timeout_amended (env : MwEnv) (h : Manager) (r : Ctx)
    (t : Tenant) (c : ConnId)
    (ht : env.getTenant r = some t) (hc : env.connectResult = Except.ok c) :
    ∃ dl : Nat,
      execDeadlines (Middleware env h r).events = [some dl] ∧
      dl ≤ env.now + 3 ∧
      (r.deadline = none → dl = env.now + 3) ∧
      (∀ rd, r.deadline = some rd → dl = min rd (env.now + 3)) := by
  cases hd : r.deadline with
  | none =>
    refine ⟨env.now + 3, ?_, le_refl _, fun _ => rfl, ?_⟩
    · cases hex : env.execOk <;>
        simp [Middleware, ht, hc, hex, execDeadlines, goWithTimeout,
          withTenant, hd, List.filterMap]
    · intro rd hrd
      cases hrd
  | some rd =>
    refine ⟨min rd (env.now + 3), ?_, min_le_right _ _, ?_, ?_⟩
    · cases hex : env.execOk <;>
        simp [Middleware, ht, hc, hex, execDeadlines, goWithTimeout,
          withTenant, hd, List.filterMap]
    · intro h0
      cases h0
    · intro rd' hrd'
      cases hrd'
      rfl

/-- Witness for C8 (amended) on the long-deadline request: the switch
deadline is `min 100 3 = 3`. -/
theorem c8_switch_timeout_witness :
    envBindPanic.getTenant longDlReq = some "acme" ∧
    envBindPanic.connectResult = Except.ok 7 ∧
    (∃ dl : Nat,
      execDeadlines (Middleware envBindPanic New longDlReq).events
          = [some dl] ∧
      dl ≤ envBindPanic.now + 3 ∧
      (longDlReq.deadline = none → dl = envBindPanic.now + 3) ∧
      (∀ rd, longDlReq.deadline = some rd →
        dl = min rd (envBindPanic.now + 3))) :=
  ⟨rfl, rfl,
   c8_switch_timeout_amended envBindPanic New longDlReq "acme" 7 rfl rfl⟩

/-- C6: registry lifecycle invariant for a bound request.  The map starts
empty in a fresh manager; the final registry is exactly the replay of the
trace's bind/unbind mutations (the registry is mutated only by the
middleware's insert and delete); at every point of the request's processing
(every prefix of the trace) the request's token is in the map iff the
processing is past the bind and not yet past the unbind; and — tokens and
pooled connections being fresh — at every point each token maps to one
connection and each bound connection is referenced by at most one token
(the registry stays 1:1). -/
theorem c6_registry_lifecycle_invariant (env : MwEnv) (h : Manager)
    (r : Ctx) (t : Tenant) (c : ConnId)
    (ht : env.getTenant r = some t) (hc : env.connectResult = Except.ok c)
    (hexec : env.execOk = true)
    (hfresh : regLookup h.conns env.newID = none)
    (hfreshc : regHasConn h.conns c = false)
    (hinj : regInjective h.conns) :
    New.conns = [] ∧
    (Middleware env h r).mgr.conns
        = replayReg h.conns (Middleware env h r).events ∧
    (∀ n,
      regLookup (replayReg h.conns ((Middleware env h r).events.take n))
          env.newID = some c ↔
        (Ev.regBind env.newID c ∈ (Middleware env h r).events.take n ∧
         Ev.regUnbind env.newID ∉ (Middleware env h r).events.take n)) ∧
    (∀ n, regInjective
        (replayReg h.conns ((Middleware env h r).events.take n))) := by
  have hM : Middleware env h r =
      { events :=
          [Ev.connAcquire c,
           Ev.execStmt (switchStmt t)
             (goWithTimeout (withTenant r t) env.now 3).deadline,
           Ev.regBind env.newID c,
           Ev.runNext (contextWithRequestID (withTenant r t) env.newID),
           Ev.regUnbind env.newID,
           Ev.connClose c],
        mgr := { conns := regErase (regInsert h.conns env.newID c) env.newID },
        panicked := env.nextPanics } := by
    simp [Middleware, ht, hc, hexec]
  rw [hM]
  refine ⟨rfl, rfl, ?_, ?_⟩
  · intro n
    rcases n with _ | _ | _ | _ | _ | _ | n <;>
      simp [List.take_succ_cons, replayReg, hfresh, regLookup_insert_self,
        regLookup_erase_self]
  · intro n
    have hback : regErase (regInsert h.conns env.newID c) env.newID
        = h.conns := by
      rw [regErase_insert_self, regErase_of_lookup_none _ _ hfresh]
    rcases n with _ | _ | _ | _ | _ | _ | n <;>
      simp only [List.take_succ_cons, List.take_zero, List.take_nil,
        replayReg, hback]
    · exact hinj
    · exact hinj
    · exact hinj
    · exact regInjective_insert _ _ _ hinj hfreshc
    · exact regInjective_insert _ _ _ hinj hfreshc
    · exact hinj
    · exact hinj

/-- Witness for C6 on a fresh manager processing the "acme" request. -/
theorem c6_registry_lifecycle_witness :
    envBindPanic.getTenant acmeReq = some "acme" ∧
    envBindPanic.connectResult = Except.ok 7 ∧
    envBindPanic.execOk = true ∧
    regLookup New.conns envBindPanic.newID = none ∧
    regHasConn New.conns 7 = false ∧
    regInjective New.conns ∧
    (New.conns = [] ∧
     (Middleware envBindPanic New acmeReq).mgr.conns
         = replayReg New.conns (Middleware envBindPanic New acmeReq).events ∧
     (∀ n,
       regLookup
           (replayReg New.conns
             ((Middleware envBindPanic New acmeReq).events.take n))
           envBindPanic.newID = some 7 ↔
         (Ev.regBind envBindPanic.newID 7 ∈
             (Middleware envBindPanic New acmeReq).events.take n ∧
          Ev.regUnbind envBindPanic.newID ∉
             (Middleware envBindPanic New acmeReq).events.take n)) ∧
     (∀ n, regInjective
         (replayReg New.conns
           ((Middleware envBindPanic New acmeReq).events.take n)))) :=
  ⟨rfl, rfl, rfl, rfl, rfl, regInjCheck_injective New.conns rfl,
   c6_registry_lifecycle_invariant envBindPanic New acmeReq "acme" 7
     rfl rfl rfl rfl rfl (regInjCheck_injective New.conns rfl)⟩

end Apartment
